import Mathlib

/-!
Shallow embedding of the `fkleafs` module registry (FelixKahle/leafs),
translated from `src/include/module_manager.h` and
`src/include/module_interface.h`.

Modelling choices, each tied to the source:

* `ModuleInfo` is defined in `module_info.h`, which is not part of the
  provided sources; per the spec it is a per-type identity key whose
  equality and hash are consistent and which distinguishes concrete module
  types.  We model an identity as a `Nat` key.
* A module object (`std::shared_ptr<ModuleInterface>`) is modelled as a
  `ModuleInstance` carrying a distinguishing id; a possibly-null pointer is
  `Option ModuleInstance`.
* `absl::flat_hash_map` is modelled as an association list with the exact
  semantics used by the manager: `contains`, `at` (lookup of a present
  key), `emplace` (insert only if the key is absent — `emplace` never
  overwrites an existing entry), `erase`, `clear`, `size`.
* Lifecycle hooks (`OnStartupModule` / `OnShutdownModule`), construction by
  `ModuleCreator<Module>::Create()`, table mutations and the `LOG` lines of
  each failure branch are recorded as events in a trace, so "hook invoked
  exactly once" and "distinct error" are statable.
* Reader/writer locking is a no-op in the sequential model; for the
  concurrency claim the body of `AddModule` is additionally given as a
  micro-step machine (`addStep`) whose steps are the regions separated by
  the lock boundaries of the source, and two threads are interleaved by an
  explicit schedule.
-/

/-- A live module object: `std::shared_ptr<ModuleInterface>` points to one of
these.  The id distinguishes distinct objects produced by distinct
`std::make_shared` calls. -/
structure ModuleInstance where
  instId : Nat
deriving DecidableEq, Repr

/-- Observable events of a manager operation: lifecycle hooks, construction,
table mutations and the `LOG` line of each distinct failure branch in
`module_manager.h`. -/
inductive MgrEvent where
  | construct (inst : ModuleInstance)
  | startup (inst : ModuleInstance)
  | shutdown (inst : ModuleInstance)
  | emplaceCall (info : Nat) (inst : ModuleInstance)
  | eraseCall (info : Nat)
  | logAlreadyLoaded (info : Nat)
  | logNullModule
  | logNotLoadedRemove (info : Nat)
  | logNullObtained (info : Nat)
  | logNotLoadedLookup (info : Nat)
  | logRegisterModule (info : Nat)
deriving DecidableEq, Repr

/-- Classifier for lifecycle-hook and construction events. -/
def MgrEvent.isLifecycle : MgrEvent → Bool
  | MgrEvent.construct _ => true
  | MgrEvent.startup _ => true
  | MgrEvent.shutdown _ => true
  | _ => false

/-- Classifier for shutdown-hook events. -/
def MgrEvent.isShutdown : MgrEvent → Bool
  | MgrEvent.shutdown _ => true
  | _ => false

/-- The manager's hashmap `m_modules`: identity key to owned instance. -/
abbrev ModuleMap := List (Nat × ModuleInstance)

/-- `m_modules.contains(info)`. -/
def containsKey : ModuleMap → Nat → Bool
  | [], _ => false
  | p :: rest, k => if p.1 = k then true else containsKey rest k

/-- `m_modules.at(info)` as a total lookup (`none` when the key is absent;
the source only calls `at` on keys it has just checked to be present). -/
def findEntry : ModuleMap → Nat → Option ModuleInstance
  | [], _ => none
  | p :: rest, k => if p.1 = k then some p.2 else findEntry rest k

/-- `m_modules.emplace(info, ptr)`: inserts only when no entry with the key
exists; on a present key `emplace` leaves the map unchanged. -/
def emplace (m : ModuleMap) (k : Nat) (v : ModuleInstance) : ModuleMap :=
  if containsKey m k then m else (k, v) :: m

/-- `m_modules.erase(info)`. -/
def eraseKey : ModuleMap → Nat → ModuleMap
  | [], _ => []
  | p :: rest, k => if p.1 = k then eraseKey rest k else p :: eraseKey rest k

/-- `m_modules.size()`. -/
def mapSize (m : ModuleMap) : Nat := m.length

/-- The `ModuleManager` state: its only data member is the hashmap
`m_modules` (the mutex is a no-op in the sequential model). -/
structure Manager where
  modules : ModuleMap
deriving DecidableEq, Repr

/-- The manager right after its private constructor: empty table. -/
def mgrInit : Manager := Manager.mk []

/-- Result of a manager operation: return value, post-state, event trace. -/
structure OpResult (α : Type) where
  value : α
  state : Manager
  trace : List MgrEvent
deriving DecidableEq, Repr

/-- `ModuleManager::IsModuleLoaded(info)`: `m_modules.contains(info)` under a
reader lock; no mutation, no event. -/
def isModuleLoaded (s : Manager) (info : Nat) : OpResult Bool :=
  OpResult.mk (containsKey s.modules info) s []

/-- `ModuleManager::ModuleCount()`: `m_modules.size()` under a reader lock. -/
def moduleCount (s : Manager) : OpResult Int :=
  OpResult.mk (Int.ofNat (mapSize s.modules)) s []

/-- `ModuleManager::AddModule(module_ptr, info)`: fails (distinct log) when
already loaded; fails (distinct log) when the pointer is null; otherwise
invokes `OnStartupModule` on the instance and then emplaces it. -/
def addModule (s : Manager) (modulePtr : Option ModuleInstance) (info : Nat) :
    OpResult Bool :=
  if (isModuleLoaded s info).value then
    OpResult.mk false s [MgrEvent.logAlreadyLoaded info]
  else
    match modulePtr with
    | none => OpResult.mk false s [MgrEvent.logNullModule]
    | some inst =>
        OpResult.mk true (Manager.mk (emplace s.modules info inst))
          [MgrEvent.startup inst, MgrEvent.emplaceCall info inst]

/-- `ModuleManager::GetModuleInterfaceSharedPtr(info)`: null (with log) when
not loaded, otherwise the stored instance; const method, no mutation. -/
def getModuleInterfaceSharedPtr (s : Manager) (info : Nat) :
    OpResult (Option ModuleInstance) :=
  if ¬ (isModuleLoaded s info).value then
    OpResult.mk none s [MgrEvent.logNotLoadedLookup info]
  else
    OpResult.mk (findEntry s.modules info) s []

/-- `ModuleManager::RemoveModule(info)`: fails (distinct log) when not
loaded; the defensive null check on the obtained pointer fails with its own
log; otherwise invokes `OnShutdownModule` and erases the entry. -/
def removeModule (s : Manager) (info : Nat) : OpResult Bool :=
  if ¬ (isModuleLoaded s info).value then
    OpResult.mk false s [MgrEvent.logNotLoadedRemove info]
  else
    match (getModuleInterfaceSharedPtr s info).value with
    | none => OpResult.mk false s [MgrEvent.logNullObtained info]
    | some inst =>
        OpResult.mk true (Manager.mk (eraseKey s.modules info))
          ((getModuleInterfaceSharedPtr s info).trace ++
            [MgrEvent.shutdown inst, MgrEvent.eraseCall info])

/-- `ModuleManager::GetModuleInterfacePtr(info)`: empty weak pointer (with
log) when not loaded, otherwise a weak pointer to the stored instance;
const method, no mutation, no load attempt. -/
def getModuleInterfacePtr (s : Manager) (info : Nat) :
    OpResult (Option ModuleInstance) :=
  if ¬ (isModuleLoaded s info).value then
    OpResult.mk none s [MgrEvent.logNotLoadedLookup info]
  else
    OpResult.mk (findEntry s.modules info) s []

/-- `ModuleManager::GetModulePtr<Module>(info)`: obtains the shared pointer
via `GetModuleInterfaceSharedPtr`, downcasts and wraps it in a weak pointer
(identity on the option in the model). -/
def getModulePtr (s : Manager) (info : Nat) : OpResult (Option ModuleInstance) :=
  getModuleInterfaceSharedPtr s info

/-- `ModuleManager::TearDown()`: `m_modules.clear()` under the write lock —
nothing else; in particular no hook is invoked on any stored instance. -/
def tearDown (_s : Manager) : OpResult Unit :=
  OpResult.mk () (Manager.mk []) []

/-- `ModuleCreator<Module>::Create()`: `std::make_shared<Module>()` — a fresh,
never-null instance; the caller supplies the fresh object id. -/
def moduleCreatorCreate (freshId : Nat) : ModuleInstance :=
  ModuleInstance.mk freshId

/-- `AddModule<Module>()` with its defaulted arguments: the default argument
`ModuleCreator<Module>::Create()` is evaluated at the call site, before the
body runs, so construction happens unconditionally. -/
def addModuleDefault (s : Manager) (freshId : Nat) (info : Nat) : OpResult Bool :=
  let inst := moduleCreatorCreate freshId
  let r := addModule s (some inst) info
  OpResult.mk r.value r.state (MgrEvent.construct inst :: r.trace)

/-- `StaticallyLoadedModuleRegistrant<Module>` constructor: logs the
registration line, then calls `ModuleManager::Get().AddModule<Module>()`
with defaulted arguments. -/
def staticallyLoadedModuleRegistrant (s : Manager) (freshId : Nat) (info : Nat) :
    OpResult Bool :=
  let r := addModuleDefault s freshId info
  OpResult.mk r.value r.state (MgrEvent.logRegisterModule info :: r.trace)

/-- Control point of a thread inside the body of `AddModule` with defaulted
arguments.  The boundaries are the lock boundaries of the source: the
default-argument construction has happened on entry; the loaded check (and
the null check, which cannot fire for a `make_shared` result) is one step;
the unlocked `OnStartupModule` call is one step; the locked `emplace` is
one step. -/
inductive AddPhase where
  | entered
  | checkedOk
  | hooked
  | finished (ok : Bool)
deriving DecidableEq, Repr

/-- A thread executing `AddModule<Module>()`: the constructed instance, the
identity, and the current control point. -/
structure AddThread where
  inst : ModuleInstance
  info : Nat
  phase : AddPhase
deriving DecidableEq, Repr

/-- One micro-step of `AddModule`'s body for one thread, against the shared
manager state. -/
def addStep (s : Manager) (t : AddThread) :
    Manager × AddThread × List MgrEvent :=
  match t.phase with
  | AddPhase.entered =>
      if (isModuleLoaded s t.info).value then
        (s, AddThread.mk t.inst t.info (AddPhase.finished false),
          [MgrEvent.logAlreadyLoaded t.info])
      else
        (s, AddThread.mk t.inst t.info AddPhase.checkedOk, [])
  | AddPhase.checkedOk =>
      (s, AddThread.mk t.inst t.info AddPhase.hooked,
        [MgrEvent.startup t.inst])
  | AddPhase.hooked =>
      (Manager.mk (emplace s.modules t.info t.inst),
        AddThread.mk t.inst t.info (AddPhase.finished true),
        [MgrEvent.emplaceCall t.info t.inst])
  | AddPhase.finished _ => (s, t, [])

/-- Result of running one thread for a number of steps: final state, final
thread, and the trace pairing each emitted event with the manager state in
which its step executed. -/
structure RunOneResult where
  state : Manager
  thread : AddThread
  trace : List (Manager × MgrEvent)
deriving DecidableEq, Repr

/-- Run a single thread for `n` micro-steps. -/
def runOne (s : Manager) (t : AddThread) : Nat → RunOneResult
  | 0 => RunOneResult.mk s t []
  | Nat.succ n =>
      let r := addStep s t
      let k := runOne r.1 r.2.1 n
      RunOneResult.mk k.state k.thread
        ((r.2.2.map (fun e => (s, e))) ++ k.trace)

/-- Result of an interleaved run of two threads. -/
structure RunTwoResult where
  state : Manager
  threadA : AddThread
  threadB : AddThread
  trace : List (Manager × MgrEvent)
deriving DecidableEq, Repr

/-- Run two threads under an explicit schedule: `true` steps thread A,
`false` steps thread B. -/
def runTwo (s : Manager) (a b : AddThread) : List Bool → RunTwoResult
  | [] => RunTwoResult.mk s a b []
  | c :: rest =>
      if c then
        let r := addStep s a
        let k := runTwo r.1 r.2.1 b rest
        RunTwoResult.mk k.state k.threadA k.threadB
          ((r.2.2.map (fun e => (s, e))) ++ k.trace)
      else
        let r := addStep s b
        let k := runTwo r.1 a r.2.1 rest
        RunTwoResult.mk k.state k.threadA k.threadB
          ((r.2.2.map (fun e => (s, e))) ++ k.trace)

/-- A manager with one loaded module: identity 0 mapped to instance 1. -/
def mgrOne : Manager := Manager.mk [(0, ModuleInstance.mk 1)]

/-- Thread A of the race: `AddModule` for identity 0 with its freshly
constructed instance 1. -/
def raceThreadA : AddThread :=
  AddThread.mk (ModuleInstance.mk 1) 0 AddPhase.entered

/-- Thread B of the race: `AddModule` for the same identity 0 with its own
freshly constructed instance 2. -/
def raceThreadB : AddThread :=
  AddThread.mk (ModuleInstance.mk 2) 0 AddPhase.entered

/-- The interleaving of §5 of the spec: both threads pass the loaded check,
then A runs its hook and emplaces, then B runs its hook and emplaces. -/
def raceRun : RunTwoResult :=
  runTwo mgrInit raceThreadA raceThreadB
    [true, false, true, true, false, false]

/-- A present key yields a stored value. -/
theorem findEntry_isSome_of_containsKey (m : ModuleMap) (k : Nat)
    (h : containsKey m k = true) : ∃ v, findEntry m k = some v := by
  induction m with
  | nil => simp [containsKey] at h
  | cons p rest ih =>
      by_cases hp : p.1 = k
      · exact ⟨p.2, by simp [findEntry, hp]⟩
      · simp [containsKey, hp] at h
        obtain ⟨v, hv⟩ := ih h
        exact ⟨v, by simp [findEntry, hp, hv]⟩

/-- After `emplace`, the key is present. -/
theorem containsKey_emplace_self (m : ModuleMap) (k : Nat) (v : ModuleInstance) :
    containsKey (emplace m k v) k = true := by
  unfold emplace
  by_cases h : containsKey m k = true
  · simp [h]
  · simp at h
    simp [h, containsKey]

/-- `emplace` on an absent key stores the given value at that key. -/
theorem findEntry_emplace_of_not_contains (m : ModuleMap) (k : Nat)
    (v : ModuleInstance) (h : containsKey m k = false) :
    findEntry (emplace m k v) k = some v := by
  simp [emplace, h, findEntry]

/-- After `erase`, the key is absent. -/
theorem containsKey_eraseKey_self (m : ModuleMap) (k : Nat) :
    containsKey (eraseKey m k) k = false := by
  induction m with
  | nil => simp [eraseKey, containsKey]
  | cons p rest ih =>
      by_cases hp : p.1 = k
      · simp [eraseKey, hp, ih]
      · simp [eraseKey, hp, containsKey, ih]

/-- Faithfulness of the micro-step machine: a single thread run to completion
computes the same final state, success flag and event sequence as the
monolithic `addModule`. -/
theorem runOne_three_eq_addModule (s : Manager) (inst : ModuleInstance) (i : Nat) :
    (runOne s (AddThread.mk inst i AddPhase.entered) 3).state =
      (addModule s (some inst) i).state
    ∧ (runOne s (AddThread.mk inst i AddPhase.entered) 3).thread.phase =
        AddPhase.finished (addModule s (some inst) i).value
    ∧ (runOne s (AddThread.mk inst i AddPhase.entered) 3).trace.map Prod.snd =
        (addModule s (some inst) i).trace := by
  cases hl : containsKey s.modules i <;>
    simp [runOne, addStep, addModule, isModuleLoaded, hl]

/-- Claim C1 (counterexample): with identity 0 not loaded in the initial
manager, a lookup via `GetModuleInterfacePtr` returns an empty reference and
leaves the state unchanged — no load is attempted and no lifecycle event
occurs — even though a load of identity 0 from that very state would have
succeeded, contradicting the claim that the lookup recovers by loading on
the caller's behalf and returns an empty reference only when the load
fails. -/
theorem C1_counterexample :
    (isModuleLoaded mgrInit 0).value = false
    ∧ (addModuleDefault mgrInit 1 0).value = true
    ∧ (getModuleInterfacePtr mgrInit 0).value = none
    ∧ (getModuleInterfacePtr mgrInit 0).state = mgrInit
    ∧ ((getModuleInterfacePtr mgrInit 0).trace.all
        (fun e => ! e.isLifecycle)) = true := by
  decide

/-- Claim C1 (amended): for every identity that is not loaded,
`GetModuleInterfacePtr` (and `GetModulePtr`) logs the failure and returns an
empty reference, leaving the manager unchanged; no load is attempted and the
identity stays not loaded. -/
theorem C1_lookup_no_recovery (s : Manager) (i : Nat)
    (h : (isModuleLoaded s i).value = false) :
    getModuleInterfacePtr s i =
      OpResult.mk none s [MgrEvent.logNotLoadedLookup i]
    ∧ getModulePtr s i =
      OpResult.mk none s [MgrEvent.logNotLoadedLookup i]
    ∧ (isModuleLoaded (getModuleInterfacePtr s i).state i).value = false := by
  simp only [isModuleLoaded] at h
  refine ⟨?_, ?_, ?_⟩ <;>
    simp [getModuleInterfacePtr, getModulePtr, getModuleInterfaceSharedPtr,
      isModuleLoaded, h]

/-- Witness for `C1_lookup_no_recovery` at the initial manager and
identity 0. -/
theorem C1_lookup_no_recovery_witness :
    getModuleInterfacePtr mgrInit 0 =
      OpResult.mk none mgrInit [MgrEvent.logNotLoadedLookup 0] := by
  exact (C1_lookup_no_recovery mgrInit 0 (by decide)).1

/-- Claim C2 (counterexample): running the static registrant for identity 0
on an empty manager constructs an instance (one construct event), invokes
`OnStartupModule` on it (one startup event) and leaves identity 0 loaded —
contradicting the claim that the registrant only records an identity and
factory without constructing or starting an instance, leaving the module
registered but not loaded. -/
theorem C2_counterexample :
    (staticallyLoadedModuleRegistrant mgrInit 1 0).trace.count
        (MgrEvent.construct (ModuleInstance.mk 1)) = 1
    ∧ (staticallyLoadedModuleRegistrant mgrInit 1 0).trace.count
        (MgrEvent.startup (ModuleInstance.mk 1)) = 1
    ∧ (isModuleLoaded
        (staticallyLoadedModuleRegistrant mgrInit 1 0).state 0).value = true := by
  decide

/-- Claim C2 (amended): the static registrant's constructor calls `AddModule`
with defaulted arguments, so for a not-yet-loaded identity it logs the
registration line, constructs a fresh instance via the factory, invokes
`OnStartupModule` on it exactly once, emplaces it, and leaves the identity
loaded — every statically declared module type is loaded, not merely
recorded, by the time `main` begins. -/
theorem C2_registrant_loads (s : Manager) (fid i : Nat)
    (h : (isModuleLoaded s i).value = false) :
    (staticallyLoadedModuleRegistrant s fid i).value = true
    ∧ (staticallyLoadedModuleRegistrant s fid i).trace =
        [MgrEvent.logRegisterModule i,
         MgrEvent.construct (moduleCreatorCreate fid),
         MgrEvent.startup (moduleCreatorCreate fid),
         MgrEvent.emplaceCall i (moduleCreatorCreate fid)]
    ∧ (isModuleLoaded
        (staticallyLoadedModuleRegistrant s fid i).state i).value = true := by
  simp only [isModuleLoaded] at h
  refine ⟨?_, ?_, ?_⟩ <;>
    simp [staticallyLoadedModuleRegistrant, addModuleDefault, addModule,
      isModuleLoaded, h, containsKey_emplace_self]

/-- Witness for `C2_registrant_loads` at the initial manager, fresh id 1 and
identity 0. -/
theorem C2_registrant_loads_witness :
    (staticallyLoadedModuleRegistrant mgrInit 1 0).value = true := by
  exact (C2_registrant_loads mgrInit 1 0 (by decide)).1

/-- Claim C3 (code evaluated at the failing input): with identity 0 loaded
(instance 1), `TearDown` clears the table — the count afterwards is 0 — but
emits no event at all; in particular the loaded instance's
`OnShutdownModule` is never invoked, contrary to the claim and to
`ModuleInterface`'s documented contract that the shutdown hook runs right
before the module object is destroyed. -/
theorem C3_teardown_skips_shutdown_hooks :
    (isModuleLoaded mgrOne 0).value = true
    ∧ (moduleCount (tearDown mgrOne).state).value = 0
    ∧ (tearDown mgrOne).trace = []
    ∧ (tearDown mgrOne).trace.count
        (MgrEvent.shutdown (ModuleInstance.mk 1)) = 0 := by
  decide

/-- Claim C4 (counterexample): at the initial manager (identity 0 not
loaded), one `AddModule` call for identity 0 succeeds while another fails
with the null-instance error — so success is not a function of the
identity's registration and loaded status alone, and the second failure is a
null-instance error, not the claim's not-registered error (the code keeps no
registration table at all). -/
theorem C4_counterexample :
    (isModuleLoaded mgrInit 0).value = false
    ∧ (addModule mgrInit (some (ModuleInstance.mk 1)) 0).value = true
    ∧ (addModule mgrInit none 0).value = false
    ∧ (addModule mgrInit none 0).trace = [MgrEvent.logNullModule] := by
  decide

/-- Claim C4 (amended): `AddModule` succeeds iff the supplied instance
pointer is non-null and the identity is not already loaded beforehand —
there is no registration check; the two failure branches (already loaded,
null instance) each log their own distinct error and leave the state
unchanged; on success `OnStartupModule` is invoked exactly once and the
identity becomes loaded.  With the defaulted factory argument, which is
never null, this specialises to: succeeds iff not already loaded. -/
theorem C4_add_success_iff (s : Manager) (ptr : Option ModuleInstance) (i : Nat) :
    ((addModule s ptr i).value = true ↔
      (ptr ≠ none ∧ (isModuleLoaded s i).value = false))
    ∧ ((isModuleLoaded s i).value = true →
        addModule s ptr i = OpResult.mk false s [MgrEvent.logAlreadyLoaded i])
    ∧ ((isModuleLoaded s i).value = false → ptr = none →
        addModule s ptr i = OpResult.mk false s [MgrEvent.logNullModule])
    ∧ (∀ inst, ptr = some inst → (isModuleLoaded s i).value = false →
        (addModule s ptr i).trace =
          [MgrEvent.startup inst, MgrEvent.emplaceCall i inst]
        ∧ (isModuleLoaded (addModule s ptr i).state i).value = true) := by
  cases hl : containsKey s.modules i <;> cases ptr <;>
    simp [addModule, isModuleLoaded, hl, containsKey_emplace_self]

/-- Witness for `C4_add_success_iff` at the initial manager, a non-null
instance and identity 0. -/
theorem C4_add_success_iff_witness :
    (addModule mgrInit (some (ModuleInstance.mk 1)) 0).value = true := by
  exact ((C4_add_success_iff mgrInit (some (ModuleInstance.mk 1)) 0).1).mpr
    (by decide)

/-- Claim C5: `RemoveModule` succeeds iff the identity is loaded beforehand;
on success `OnShutdownModule` is invoked exactly once on the stored instance
and the identity becomes not loaded, while a subsequent load of the same
identity succeeds again (nothing resembling registration is lost — the code
keeps no registration state that `RemoveModule` could touch); on failure it
returns false with the not-loaded log, invokes no hook and leaves the state
unchanged. -/
theorem C5_remove_iff (s : Manager) (i : Nat) :
    ((removeModule s i).value = true ↔ (isModuleLoaded s i).value = true)
    ∧ ((isModuleLoaded s i).value = true →
        ∃ inst, findEntry s.modules i = some inst
          ∧ (removeModule s i).trace =
              [MgrEvent.shutdown inst, MgrEvent.eraseCall i]
          ∧ (isModuleLoaded (removeModule s i).state i).value = false
          ∧ ∀ fid, (addModuleDefault (removeModule s i).state fid i).value = true)
    ∧ ((isModuleLoaded s i).value = false →
        removeModule s i = OpResult.mk false s [MgrEvent.logNotLoadedRemove i]) := by
  cases hl : containsKey s.modules i with
  | false =>
      simp [removeModule, isModuleLoaded, getModuleInterfaceSharedPtr, hl]
  | true =>
      obtain ⟨v, hv⟩ := findEntry_isSome_of_containsKey s.modules i hl
      refine ⟨?_, ?_, ?_⟩
      · simp [removeModule, isModuleLoaded, getModuleInterfaceSharedPtr, hl, hv]
      · intro _
        refine ⟨v, hv, ?_, ?_, ?_⟩
        · simp [removeModule, isModuleLoaded, getModuleInterfaceSharedPtr, hl, hv]
        · simp [removeModule, isModuleLoaded, getModuleInterfaceSharedPtr, hl,
            hv, containsKey_eraseKey_self]
        · intro fid
          simp [removeModule, isModuleLoaded, getModuleInterfaceSharedPtr, hl,
            hv, addModuleDefault, addModule, containsKey_eraseKey_self]
      · intro hfalse
        simp [isModuleLoaded, hl] at hfalse

/-- Witness for `C5_remove_iff` at the one-module manager and identity 0. -/
theorem C5_remove_iff_witness :
    (removeModule mgrOne 0).value = true := by
  exact ((C5_remove_iff mgrOne 0).1).mpr (by decide)

/-- Claim C6: in a sequential successful `AddModule` run (micro-step machine,
three steps from entry), the startup hook fires strictly before the emplace
into the table — the trace is startup first, emplace second — and every
state in which the startup event is emitted still has the identity not
loaded; afterwards the identity is loaded and the call reports success. -/
theorem C6_startup_before_insert (s : Manager) (inst : ModuleInstance) (i : Nat)
    (h : (isModuleLoaded s i).value = false) :
    (runOne s (AddThread.mk inst i AddPhase.entered) 3).trace =
      [(s, MgrEvent.startup inst), (s, MgrEvent.emplaceCall i inst)]
    ∧ (∀ m e, (m, e) ∈ (runOne s (AddThread.mk inst i AddPhase.entered) 3).trace →
        e = MgrEvent.startup inst → (isModuleLoaded m i).value = false)
    ∧ (isModuleLoaded
        (runOne s (AddThread.mk inst i AddPhase.entered) 3).state i).value = true
    ∧ (runOne s (AddThread.mk inst i AddPhase.entered) 3).thread.phase =
        AddPhase.finished true := by
  simp only [isModuleLoaded] at h
  have htr : (runOne s (AddThread.mk inst i AddPhase.entered) 3).trace =
      [(s, MgrEvent.startup inst), (s, MgrEvent.emplaceCall i inst)] := by
    simp [runOne, addStep, isModuleLoaded, h]
  refine ⟨htr, ?_, ?_, ?_⟩
  · intro m e hm he
    rw [htr] at hm
    rcases List.mem_cons.mp hm with h1 | h1
    · rcases Prod.mk.injEq .. ▸ h1 with ⟨hms, _⟩
      rw [hms]
      simpa [isModuleLoaded] using h
    · rcases List.mem_cons.mp h1 with h2 | h2
      · exfalso
        have : e = MgrEvent.emplaceCall i inst := (Prod.mk.injEq .. ▸ h2).2
        rw [he] at this
        exact MgrEvent.noConfusion this
      · exact absurd h2 (List.not_mem_nil _)
  · simp [runOne, addStep, isModuleLoaded, h, containsKey_emplace_self]
  · simp [runOne, addStep, isModuleLoaded, h]

/-- Witness for `C6_startup_before_insert` at the initial manager,
instance 1 and identity 0. -/
theorem C6_startup_before_insert_witness :
    (runOne mgrInit (AddThread.mk (ModuleInstance.mk 1) 0 AddPhase.entered) 3).trace =
      [(mgrInit, MgrEvent.startup (ModuleInstance.mk 1)),
       (mgrInit, MgrEvent.emplaceCall 0 (ModuleInstance.mk 1))] := by
  exact (C6_startup_before_insert mgrInit (ModuleInstance.mk 1) 0 (by decide)).1

/-- Claim C7: starting from a state where the identity is not loaded, two
consecutive `AddModule` calls (defaulted arguments) succeed once and then
fail with the already-loaded error, leaving the state as after the first
call; two consecutive `RemoveModule` calls then succeed once and fail the
second time with the not-loaded error, again leaving the state unchanged. -/
theorem C7_double_call_failure (s : Manager) (fid fid2 i : Nat)
    (h : (isModuleLoaded s i).value = false) :
    (addModuleDefault s fid i).value = true
    ∧ (addModuleDefault (addModuleDefault s fid i).state fid2 i).value = false
    ∧ (addModuleDefault (addModuleDefault s fid i).state fid2 i).state =
        (addModuleDefault s fid i).state
    ∧ (addModuleDefault (addModuleDefault s fid i).state fid2 i).trace =
        [MgrEvent.construct (moduleCreatorCreate fid2),
         MgrEvent.logAlreadyLoaded i]
    ∧ (removeModule (addModuleDefault s fid i).state i).value = true
    ∧ (removeModule
        (removeModule (addModuleDefault s fid i).state i).state i).value = false
    ∧ (removeModule
        (removeModule (addModuleDefault s fid i).state i).state i).state =
        (removeModule (addModuleDefault s fid i).state i).state
    ∧ (removeModule
        (removeModule (addModuleDefault s fid i).state i).state i).trace =
        [MgrEvent.logNotLoadedRemove i] := by
  simp only [isModuleLoaded] at h
  have hs1 : (addModuleDefault s fid i).state =
      Manager.mk (emplace s.modules i (moduleCreatorCreate fid)) := by
    simp [addModuleDefault, addModule, isModuleLoaded, h]
  have hc1 : containsKey (emplace s.modules i (moduleCreatorCreate fid)) i = true :=
    containsKey_emplace_self s.modules i (moduleCreatorCreate fid)
  have hf1 : findEntry (emplace s.modules i (moduleCreatorCreate fid)) i =
      some (moduleCreatorCreate fid) :=
    findEntry_emplace_of_not_contains s.modules i (moduleCreatorCreate fid) h
  refine ⟨?_, ?_, ?_, ?_, ?_, ?_, ?_, ?_⟩ <;>
    simp [addModuleDefault, addModule, removeModule, isModuleLoaded,
      getModuleInterfaceSharedPtr, hs1, h, hc1, hf1, containsKey_eraseKey_self]

/-- Witness for `C7_double_call_failure` at the initial manager, fresh ids 1
and 2, identity 0. -/
theorem C7_double_call_failure_witness :
    (addModuleDefault (addModuleDefault mgrInit 1 0).state 2 0).value = false := by
  exact (C7_double_call_failure mgrInit 1 2 0 (by decide)).2.1

/-- Claim C8 (counterexample): in the interleaving where both threads pass
the loaded check before either emplaces (thread A checks, B checks, A hooks
and emplaces, B hooks and emplaces), both startup hooks run — but the second
emplace does not overwrite the first Loaded Entry: the table still maps
identity 0 to thread A's instance 1, not to thread B's instance 2,
contradicting the claim that the second insertion silently overwrites the
first. -/
theorem C8_counterexample :
    (raceRun.trace.map Prod.snd).count (MgrEvent.startup (ModuleInstance.mk 1)) = 1
    ∧ (raceRun.trace.map Prod.snd).count (MgrEvent.startup (ModuleInstance.mk 2)) = 1
    ∧ findEntry raceRun.state.modules 0 = some (ModuleInstance.mk 1)
    ∧ ¬ findEntry raceRun.state.modules 0 = some (ModuleInstance.mk 2) := by
  decide

/-- Claim C8 (amended): in that interleaving both factories' instances exist
and both startup hooks execute, and both calls report success; but because
`emplace` inserts only when the key is absent, the second emplace is a
silent no-op — the first inserted instance remains the single Loaded Entry,
and the other instance's owning reference is dropped without its shutdown
hook ever running (no shutdown event occurs anywhere in the run). -/
theorem C8_race_both_hooks_no_overwrite :
    raceRun.threadA.phase = AddPhase.finished true
    ∧ raceRun.threadB.phase = AddPhase.finished true
    ∧ (raceRun.trace.map Prod.snd).count (MgrEvent.startup (ModuleInstance.mk 1)) = 1
    ∧ (raceRun.trace.map Prod.snd).count (MgrEvent.startup (ModuleInstance.mk 2)) = 1
    ∧ findEntry raceRun.state.modules 0 = some (ModuleInstance.mk 1)
    ∧ mapSize raceRun.state.modules = 1
    ∧ ((raceRun.trace.map Prod.snd).all (fun e => ! e.isShutdown)) = true := by
  decide

/-- Claim C9: every query — `IsModuleLoaded`, `ModuleCount`,
`GetModuleInterfacePtr`, `GetModuleInterfaceSharedPtr`, `GetModulePtr` —
returns the manager state unchanged and emits no construction or lifecycle
event, for every input; in particular a query on a not-loaded identity
returns an empty reference rather than loading anything. -/
theorem C9_queries_do_not_mutate (s : Manager) (i : Nat) :
    (isModuleLoaded s i).state = s
    ∧ (isModuleLoaded s i).trace = []
    ∧ (moduleCount s).state = s
    ∧ (moduleCount s).trace = []
    ∧ (getModuleInterfacePtr s i).state = s
    ∧ (getModuleInterfaceSharedPtr s i).state = s
    ∧ (getModulePtr s i).state = s
    ∧ ((getModuleInterfacePtr s i).trace.all (fun e => ! e.isLifecycle)) = true
    ∧ ((getModulePtr s i).trace.all (fun e => ! e.isLifecycle)) = true
    ∧ ((isModuleLoaded s i).value = false →
        (getModuleInterfacePtr s i).value = none
        ∧ (getModulePtr s i).value = none) := by
  cases hl : containsKey s.modules i <;>
    simp [isModuleLoaded, moduleCount, getModuleInterfacePtr,
      getModuleInterfaceSharedPtr, getModulePtr, MgrEvent.isLifecycle, hl]

/-- Witness for `C9_queries_do_not_mutate` at the initial manager and
identity 0, discharging the not-loaded antecedent. -/
theorem C9_queries_do_not_mutate_witness :
    (getModuleInterfacePtr mgrInit 0).value = none
    ∧ (getModulePtr mgrInit 0).value = none := by
  exact (C9_queries_do_not_mutate mgrInit 0).2.2.2.2.2.2.2.2.2 (by decide)

/-- Claim C10: `AddModule` with defaulted arguments evaluates
`ModuleCreator::Create()` at the call site, so a fresh instance is
constructed unconditionally — the construct event leads the trace of every
call; when the identity is already loaded the call then fails with the
already-loaded error and the discarded instance never receives a startup or
shutdown hook (the trace is exactly construction followed by the error
log), and the manager state is unchanged. -/
theorem C10_default_arg_constructs (s : Manager) (fid i : Nat) :
    (addModuleDefault s fid i).trace.head? =
      some (MgrEvent.construct (moduleCreatorCreate fid))
    ∧ ((isModuleLoaded s i).value = true →
        (addModuleDefault s fid i).value = false
        ∧ (addModuleDefault s fid i).state = s
        ∧ (addModuleDefault s fid i).trace =
            [MgrEvent.construct (moduleCreatorCreate fid),
             MgrEvent.logAlreadyLoaded i]) := by
  cases hl : containsKey s.modules i <;>
    simp [addModuleDefault, addModule, isModuleLoaded, hl]

/-- Witness for `C10_default_arg_constructs` at the one-module manager,
fresh id 7 and the already-loaded identity 0. -/
theorem C10_default_arg_constructs_witness :
    (addModuleDefault mgrOne 7 0).value = false
    ∧ (addModuleDefault mgrOne 7 0).state = mgrOne := by
  have h := ((C10_default_arg_constructs mgrOne 7 0).2 (by decide))
  exact ⟨h.1, h.2.1⟩
